import Mathlib

set_option autoImplicit false

/-
Verification development for the metabiz-whatsapp-headless service.

The JavaScript sources are shallowly embedded as executable Lean
definitions:

* `src/utils/cookies.js`      -> `jsTrim`, `splitOnChar`, `stripQuotes`,
                                 `parseCookieString`, `toPlaywrightCookies`
* `src/utils/fingerprint.js`  -> `randomChoice`, `buildUserAgent`,
                                 `generateFingerprint`
* `src/services/browserFactory.js` -> `createBrowser`
* `src/services/sessionManager.js` -> `createSession`, `getSession`,
                                 `destroySession`, `sendMessageForSession`,
                                 `getAllSessionIds`, `recreateSession`,
                                 `startActivitySimulation`
* `src/services/automation.js` -> `sendMessage` (field validation; the
                                 six DOM steps are an environment oracle)
* `src/routes/messages` route  -> `handleSendMessageRoute`

Nondeterminism of the runtime (Math.random draws, Date.now, uuidv4, and
every fallible browser interaction) is captured by explicit oracle
parameters (`Env`, `RandomDraws`, `FiringDraws`).  Machine state touched
by the session manager (the in-memory registry, live browser handles,
interval timers) is an explicit `World` record threaded through the
operations.
-/

namespace MWH

/-! ## Cookie parser (src/utils/cookies.js) -/

/-- The double-quote character, written via its code point. -/
def dquote : Char := Char.ofNat 34

/-- The single-quote character, written via its code point. -/
def squote : Char := Char.ofNat 39

/-- JavaScript `String.prototype.trim` on the character list of a string:
drop leading and trailing whitespace. -/
def jsTrim (cs : List Char) : List Char :=
  ((cs.dropWhile Char.isWhitespace).reverse.dropWhile Char.isWhitespace).reverse

/-- JavaScript `String.prototype.split` with a one-character separator:
`"a;b".split(';') = ["a","b"]`, `"".split(';') = [""]`. -/
def splitOnChar (sep : Char) : List Char → List (List Char)
  | [] => [[]]
  | c :: rest =>
    let r := splitOnChar sep rest
    if c = sep then [] :: r
    else
      match r with
      | [] => [[c]]
      | h :: t => (c :: h) :: t

/-- A parsed cookie entry `{name, value}` (cookies.js). -/
structure Cookie where
  name : String
  value : String
deriving DecidableEq, Repr

/-- JavaScript `value.startsWith(q)` for a one-character argument. -/
def startsWithChar (cs : List Char) (q : Char) : Bool :=
  match cs with
  | [] => false
  | c :: _ => c = q

/-- JavaScript `value.endsWith(q)` for a one-character argument. -/
def endsWithChar (cs : List Char) (q : Char) : Bool :=
  match cs.getLast? with
  | none => false
  | some c => c = q

/-- The quote-stripping step of `parseCookieString` (cookies.js lines
29-35): if the value starts and ends with `"`, or starts and ends with
`'`, remove the first and last character (`value.slice(1, -1)`);
otherwise keep the value verbatim. -/
def stripQuotes (v : List Char) : List Char :=
  if (startsWithChar v dquote && endsWithChar v dquote)
      || (startsWithChar v squote && endsWithChar v squote) then
    (v.drop 1).dropLast
  else v

/-- One iteration of the `for (const pair of pairs)` loop body of
`parseCookieString`: trim the segment, skip it when empty or without
`=`, split at the first `=`, trim name and value, strip one layer of
matching quotes from the value, and keep the entry only when the name
is non-empty. -/
def parseCookiePair (pair : List Char) : Option Cookie :=
  let trimmed := jsTrim pair
  if trimmed.isEmpty then none
  else
    match trimmed.findIdx? (fun c => c = '=') with
    | none => none
    | some eqIndex =>
      let name := jsTrim (trimmed.take eqIndex)
      let value := stripQuotes (jsTrim (trimmed.drop (eqIndex + 1)))
      if name.isEmpty then none
      else some ⟨String.mk name, String.mk value⟩

/-- `parseCookieString` (cookies.js lines 11-43): empty or blank input
gives `[]`; otherwise split on `;` and collect the entries the loop
pushes, in order. -/
def parseCookieString (cookieString : String) : List Cookie :=
  if (jsTrim cookieString.data).isEmpty then []
  else (splitOnChar ';' cookieString.data).filterMap parseCookiePair

/-- A cookie in Playwright format (cookies.js `toPlaywrightCookies`). -/
structure PlaywrightCookie where
  name : String
  value : String
  domain : String
  path : String
  secure : Bool
  httpOnly : Bool
  sameSite : String
deriving DecidableEq, Repr

/-- `toPlaywrightCookies` (cookies.js lines 51-61). -/
def toPlaywrightCookies (cookies : List Cookie) (domain : String) : List PlaywrightCookie :=
  cookies.map (fun cookie =>
    { name := cookie.name
      value := cookie.value
      domain := if (startsWithChar domain.data '.') then domain else "." ++ domain
      path := "/"
      secure := true
      httpOnly := false
      sameSite := "Lax" })

/-! ## Fingerprint generator (src/utils/fingerprint.js) -/

/-- A viewport resolution entry of the fixed catalog. -/
structure Viewport where
  width : Nat
  height : Nat
deriving DecidableEq, Repr

/-- The fixed resolution catalog (fingerprint.js lines 6-13). -/
def COMMON_RESOLUTIONS : List Viewport :=
  [⟨1920, 1080⟩, ⟨1366, 768⟩, ⟨1536, 864⟩, ⟨2560, 1440⟩, ⟨1440, 900⟩, ⟨1280, 720⟩]

/-- The fixed Chrome version catalog (fingerprint.js lines 15-20). -/
def CHROME_VERSIONS : List String :=
  ["120.0.0.0", "121.0.0.0", "120.0.6099.109", "121.0.6167.85"]

/-- The fixed hardware-concurrency catalog (fingerprint.js line 22). -/
def HARDWARE_CONCURRENCY_OPTIONS : List Nat := [2, 4, 8, 16]

/-- The fixed device-memory catalog (fingerprint.js line 23). -/
def DEVICE_MEMORY_OPTIONS : List Nat := [4, 8, 16]

/-- The fixed platform catalog (fingerprint.js lines 25-29). -/
def PLATFORMS : List String := ["Win32", "MacIntel", "Linux x86_64"]

/-- `randomChoice(array)` = `array[Math.floor(Math.random() * array.length)]`
(fingerprint.js lines 34-36).  The draw of `Math.random()` is supplied as
the natural number `r`; `Math.floor(u * n)` for `u` uniform in `[0,1)`
ranges over exactly the indices `0 .. n-1`, embedded here as `r % n`.
The default `d` is never reached on the non-empty catalogs. -/
def randomChoice {α : Type} (l : List α) (d : α) (r : Nat) : α :=
  l.getD (r % l.length) d

/-- The user-agent template of `generateFingerprint` (fingerprint.js
lines 50-57): one fixed string per platform with the drawn Chrome
version interpolated. -/
def buildUserAgent (platform chromeVersion : String) : String :=
  if platform = "Win32" then
    "Mozilla/5.0 (Windows NT 10.0; Win64; x64) AppleWebKit/537.36 (KHTML, like Gecko) Chrome/"
      ++ chromeVersion ++ " Safari/537.36"
  else if platform = "MacIntel" then
    "Mozilla/5.0 (Macintosh; Intel Mac OS X 10_15_7) AppleWebKit/537.36 (KHTML, like Gecko) Chrome/"
      ++ chromeVersion ++ " Safari/537.36"
  else
    "Mozilla/5.0 (X11; Linux x86_64) AppleWebKit/537.36 (KHTML, like Gecko) Chrome/"
      ++ chromeVersion ++ " Safari/537.36"

/-- The platform token embedded in each user-agent template, keyed by the
`platform` field drawn from `PLATFORMS`. -/
def platformToken : String → String
  | "Win32" => "Windows NT 10.0; Win64; x64"
  | "MacIntel" => "Macintosh; Intel Mac OS X 10_15_7"
  | _ => "X11; Linux x86_64"

/-- The fingerprint descriptor returned by `generateFingerprint`
(fingerprint.js lines 59-70). -/
structure Fingerprint where
  viewport : Viewport
  userAgent : String
  locale : String
  timezoneId : String
  platform : String
  hardwareConcurrency : Nat
  deviceMemory : Nat
deriving DecidableEq, Repr

/-- The five independent `Math.random()` draws consumed by one call of
`generateFingerprint`, as indices for `randomChoice`. -/
structure RandomDraws where
  r1 : Nat
  r2 : Nat
  r3 : Nat
  r4 : Nat
  r5 : Nat
deriving DecidableEq, Repr

/-- `generateFingerprint` (fingerprint.js lines 42-71): draw one value
from each catalog, derive the user agent from platform and version,
and fix locale and timezone to constants. -/
def generateFingerprint (rd : RandomDraws) : Fingerprint :=
  let resolution := randomChoice COMMON_RESOLUTIONS ⟨0, 0⟩ rd.r1
  let chromeVersion := randomChoice CHROME_VERSIONS "" rd.r2
  let platform := randomChoice PLATFORMS "" rd.r3
  let hardwareConcurrency := randomChoice HARDWARE_CONCURRENCY_OPTIONS 0 rd.r4
  let deviceMemory := randomChoice DEVICE_MEMORY_OPTIONS 0 rd.r5
  { viewport := ⟨resolution.width, resolution.height⟩
    userAgent := buildUserAgent platform chromeVersion
    locale := "en-US"
    timezoneId := "America/New_York"
    platform := platform
    hardwareConcurrency := hardwareConcurrency
    deviceMemory := deviceMemory }

/-- JavaScript `hay.includes(needle)`: substring containment. -/
def strIncludes (hay needle : String) : Bool :=
  hay.data.tails.any (fun t => needle.data.isPrefixOf t)

/-- JavaScript falsiness of a possibly-absent string (`!x`, and the
left operand of an `x || fallback`): the value is missing
(undefined/null), or it is the empty string. -/
def isFalsyField : Option String → Bool
  | none => true
  | some s => s = ""

/-! ## Error taxonomy (src/errors.js) -/

/-- The categorized error classes of errors.js, plus `other` for errors
raised by the browser-automation runtime itself (which are instances of
none of the four classes). -/
inductive JsError where
  | invalidInput (msg : String)
  | sessionNotFound (sid : String)
  | automationFailure (msg : String)
  | browserCrash (msg : String)
  | other (msg : String)
deriving DecidableEq, Repr

/-- The `message` property of a thrown error (`SessionNotFoundError`
formats its message from the session id, errors.js lines 6-8). -/
def JsError.message : JsError → String
  | .invalidInput m => m
  | .sessionNotFound sid => "Session not found: " ++ sid
  | .automationFailure m => m
  | .browserCrash m => m
  | .other m => m

/-! ## Session registry state (src/services/sessionManager.js) -/

/-- One session record as stored in the `sessions` map
(sessionManager.js lines 136-144).  Live browser-side handles are
identified by natural numbers. -/
structure SessionRec where
  browser : Nat
  context : Nat
  page : Nat
  activityTimer : Option Nat
  createdAt : Nat
  lastActivity : Nat
  fingerprint : Fingerprint
deriving DecidableEq, Repr

/-- The machine state the session manager touches: a handle supply, the
set of live browser-side resources ever allocated, the resources on
which `close()` has been invoked, the interval timers started, the
timers on which `clearInterval()` has been invoked, and the in-memory
registry (`sessions` map, in insertion order). -/
structure World where
  nextHandle : Nat
  allocated : List Nat
  closed : List Nat
  activeTimers : List Nat
  cancelled : List Nat
  registry : List (String × SessionRec)
deriving DecidableEq, Repr

/-- The empty initial state (fresh process, empty `sessions` map). -/
def emptyWorld : World :=
  { nextHandle := 0, allocated := [], closed := [], activeTimers := []
    cancelled := [], registry := [] }

/-- Environment oracle: it decides every nondeterministic outcome of a
run — the failures of each awaited browser operation (as the thrown
error's message, `none` meaning success), the uuid and clock draws, the
`Math.random()` draws of `generateFingerprint`, and the outcome of the
six-step UI automation against the remote page (indexed by the page
handle it runs on).  Per-domain `addCookies` failures are caught and
logged by `createSession` (lines 101-109) with no further effect, so
they need no oracle entry. -/
structure Env where
  launchErr : Option String
  newContextErr : Option String
  initScriptErr : Option String
  newPageErr : Option String
  gotoErr : Option String
  waitErr : Option String
  titleErr : Option String
  freshId : String
  now : Nat
  draws : RandomDraws
  sendOutcome : Nat → Except JsError Unit

/-- Association-list lookup mirroring `sessions.get(sessionId)`. -/
def lookupSession (l : List (String × SessionRec)) (sid : String) : Option SessionRec :=
  match l with
  | [] => none
  | (k, v) :: rest => if k = sid then some v else lookupSession rest sid

/-- `sessions.set(sessionId, data)`: replace the entry in place when the
key is present (JavaScript `Map.set` keeps insertion order), append
otherwise. -/
def setSession (l : List (String × SessionRec)) (sid : String) (v : SessionRec) :
    List (String × SessionRec) :=
  match l with
  | [] => [(sid, v)]
  | (k, w) :: rest =>
    if k = sid then (k, v) :: rest else (k, w) :: setSession rest sid v

/-- `sessions.delete(sessionId)`. -/
def removeSession (l : List (String × SessionRec)) (sid : String) :
    List (String × SessionRec) :=
  match l with
  | [] => []
  | (k, w) :: rest =>
    if k = sid then removeSession rest sid else (k, w) :: removeSession rest sid

/-- Invoke `close()` on a handle.  In the source every such call is
followed by `.catch(() => {})`, so a rejection is discarded and has no
observable effect; the model records that close was invoked. -/
def closeHandle (h : Nat) (w : World) : World :=
  { w with closed := h :: w.closed }

/-- Invoke `clearInterval` on a timer handle. -/
def clearTimer (t : Nat) (w : World) : World :=
  { w with cancelled := t :: w.cancelled }

/-- The `if (session.activityTimer) clearInterval(session.activityTimer)`
guard of `destroySession` (lines 196-198). -/
def clearTimerOpt (o : Option Nat) (w : World) : World :=
  match o with
  | some t => clearTimer t w
  | none => w

/-- The tuple returned by `createBrowser` (browserFactory.js lines
147-152). -/
structure BrowserInstance where
  browser : Nat
  context : Nat
  page : Nat
  fingerprint : Fingerprint
deriving DecidableEq, Repr

/-- `createBrowser` (browserFactory.js lines 21-153): use the supplied
fingerprint when one is given, otherwise draw a fresh one
(`existingFingerprint || generateFingerprint()`); then launch the
browser, create the context, install the init script, and open a page,
in that order.  Each awaited step can throw; the function has no
try/catch, so a failure propagates immediately and the resources
acquired before it are neither closed nor returned to the caller. -/
def createBrowser (env : Env) (w : World) (_sessionId : String)
    (existingFingerprint : Option Fingerprint) :
    World × Except JsError BrowserInstance :=
  let fingerprint :=
    match existingFingerprint with
    | some fp => fp
    | none => generateFingerprint env.draws
  match env.launchErr with
  | some m => (w, .error (.other m))
  | none =>
    let browser := w.nextHandle
    let w1 := { w with nextHandle := w.nextHandle + 1, allocated := browser :: w.allocated }
    match env.newContextErr with
    | some m => (w1, .error (.other m))
    | none =>
      let context := w1.nextHandle
      let w2 := { w1 with nextHandle := w1.nextHandle + 1, allocated := context :: w1.allocated }
      match env.initScriptErr with
      | some m => (w2, .error (.other m))
      | none =>
        match env.newPageErr with
        | some m => (w2, .error (.other m))
        | none =>
          let page := w2.nextHandle
          let w3 := { w2 with nextHandle := w2.nextHandle + 1, allocated := page :: w2.allocated }
          (w3, .ok { browser := browser, context := context, page := page, fingerprint := fingerprint })

/-- The `catch` block of `createSession` (sessionManager.js lines
157-167): close page, context and browser (each `.catch(() => {})`).
It runs only when the factory already returned, so all three local
handles are set; the activity timer is started after the last fallible
operation and is therefore always `null` when the block runs. -/
def createSessionCleanup (bi : BrowserInstance) (w : World) : World :=
  closeHandle bi.browser (closeHandle bi.context (closeHandle bi.page w))

/-- Error wrapping at the end of the `catch` block (lines 164-167): an
`InvalidInputError` is rethrown as is, everything else becomes
`BrowserCrashError`. -/
def wrapCreateError : JsError → JsError
  | .invalidInput m => .invalidInput m
  | e => .browserCrash ("Failed to create session: " ++ e.message)

/-- `createSession` (sessionManager.js lines 74-169).  Steps, in source
order: reject a blank cookie string; pick the session id with
`existingSessionId || uuidv4()` (line 80) — the supplied id when it is
truthy, a fresh uuid draw when it is absent or the falsy empty
string; call the factory; parse the cookies and reject
an empty parse; apply the cookies per domain (failures swallowed,
lines 101-109, so the model tracks no state for them); navigate to the
inbox; wait and read the page title; start the activity simulation
timer; store the record in the registry.  On any failure after the
factory returned, the catch block closes the three returned handles and
rethrows the wrapped error; a failure inside the factory reaches the
catch block with all local handles still `null`, so nothing is
closed. -/
def createSession (env : Env) (w : World) (cookieString : String)
    (existingSessionId : Option String) (existingFingerprint : Option Fingerprint) :
    World × Except JsError String :=
  if (jsTrim cookieString.data).isEmpty then
    (w, .error (.invalidInput "Cookies are required"))
  else
    let sessionId :=
      if isFalsyField existingSessionId then env.freshId
      else existingSessionId.getD ""
    match createBrowser env w sessionId existingFingerprint with
    | (w1, .error e) => (w1, .error (wrapCreateError e))
    | (w1, .ok bi) =>
      let cookies := parseCookieString cookieString
      if cookies.length = 0 then
        (createSessionCleanup bi w1,
         .error (wrapCreateError (.invalidInput "No valid cookies found in the input string")))
      else
        match env.gotoErr with
        | some m => (createSessionCleanup bi w1, .error (wrapCreateError (.other m)))
        | none =>
          match env.waitErr with
          | some m => (createSessionCleanup bi w1, .error (wrapCreateError (.other m)))
          | none =>
            match env.titleErr with
            | some m => (createSessionCleanup bi w1, .error (wrapCreateError (.other m)))
            | none =>
              let timer := w1.nextHandle
              let w2 := { w1 with
                nextHandle := w1.nextHandle + 1
                activeTimers := timer :: w1.activeTimers }
              let sessionData : SessionRec :=
                { browser := bi.browser
                  context := bi.context
                  page := bi.page
                  activityTimer := some timer
                  createdAt := env.now
                  lastActivity := env.now
                  fingerprint := bi.fingerprint }
              ({ w2 with registry := setSession w2.registry sessionId sessionData },
               .ok sessionId)

/-- `getSession` (sessionManager.js lines 176-182). -/
def getSession (w : World) (sid : String) : Except JsError SessionRec :=
  match lookupSession w.registry sid with
  | none => .error (.sessionNotFound sid)
  | some s => .ok s

/-- `getAllSessionIds` (sessionManager.js lines 258-260). -/
def getAllSessionIds (w : World) : List String :=
  w.registry.map (fun p => p.1)

/-- `destroySession` (sessionManager.js lines 188-224): throw
`SessionNotFoundError` when the id is absent; otherwise clear the
activity timer, close page, context and browser in that order (each
close is `.catch(() => {})`, so a rejection is swallowed and does not
alter control flow), and in the `finally` block remove the record from
the registry unconditionally. -/
def destroySession (w : World) (sid : String) : World × Except JsError Unit :=
  match lookupSession w.registry sid with
  | none => (w, .error (.sessionNotFound sid))
  | some session =>
    let w1 := clearTimerOpt session.activityTimer w
    let w2 := closeHandle session.browser (closeHandle session.context (closeHandle session.page w1))
    ({ w2 with registry := removeSession w2.registry sid }, .ok ())

/-! ## UI automation engine (src/services/automation.js) -/

/-- The body of a message-send request. A `none` field is one absent
from the request. -/
structure SendRequest where
  extension : Option String
  phoneNumber : Option String
  message : Option String
deriving DecidableEq, Repr

/-- `sendMessage` of the automation engine (automation.js lines
736-810): first the guard of lines 737-740, which throws
`AutomationError` when any of the three fields is falsy; then the page
reload and the six DOM-interaction steps, whose outcome against the
uncontrolled remote page is the environment oracle `sendOutcome`. -/
def sendMessage (env : Env) (page : Nat) (req : SendRequest) : Except JsError Unit :=
  if isFalsyField req.extension || isFalsyField req.phoneNumber
      || isFalsyField req.message then
    .error (.automationFailure "Missing required fields: extension, phoneNumber, message")
  else
    env.sendOutcome page

/-- The closed-resource recognizer of `sendMessageForSession`
(sessionManager.js lines 242-246): the thrown error's message contains
one of the three Playwright closed-target phrases. -/
def isClosedResourceMsg (m : String) : Bool :=
  strIncludes m "Target closed" || strIncludes m "Browser closed"
    || strIncludes m "Session closed"

/-- `sendMessageForSession` (sessionManager.js lines 231-252): look the
session up (propagating `SessionNotFoundError`), update `lastActivity`
on the stored record, run the automation; when it fails with a
recognized closed-resource message, delete the record from the registry
and throw `BrowserCrashError`, otherwise rethrow the failure. -/
def sendMessageForSession (env : Env) (w : World) (sid : String) (req : SendRequest) :
    World × Except JsError Unit :=
  match lookupSession w.registry sid with
  | none => (w, .error (.sessionNotFound sid))
  | some session =>
    let session1 := { session with lastActivity := env.now }
    let w1 := { w with registry := setSession w.registry sid session1 }
    match sendMessage env session.page req with
    | .ok _ => (w1, .ok ())
    | .error e =>
      if isClosedResourceMsg e.message then
        ({ w1 with registry := removeSession w1.registry sid },
         .error (.browserCrash ("Browser crashed for session " ++ sid)))
      else
        (w1, .error e)

/-- `recreateSession` (sessionManager.js lines 344-369): bail out (log
and return `null`) when the journal entry has no cookie string or no
fingerprint, otherwise replay `createSession` with the persisted
session id and fingerprint; a creation failure is caught and returns
`null`. -/
def recreateSession (env : Env) (w : World) (mdSessionId : String)
    (mdCookieString : Option String) (mdFingerprint : Option Fingerprint) :
    World × Option String :=
  if isFalsyField mdCookieString then (w, none)
  else
    match mdFingerprint with
    | none => (w, none)
    | some fp =>
      match createSession env w (mdCookieString.getD "") (some mdSessionId) (some fp) with
      | (w1, .ok sid) => (w1, some sid)
      | (w1, .error _) => (w1, none)

/-! ## Message route (src/routes, POST /:sessionId/send-message) -/

/-- The categorized HTTP responses of the send-message route:
`badRequest` is the 400 invalid-input response compartment
(`InvalidInputError.statusCode`), `notFound` the 404 of
`SessionNotFoundError`, `automationFailed` the 500 response built from
an `AutomationError`, and `internalError` the generic `next(error)`
path taken for `BrowserCrashError` and unrecognized errors. -/
inductive HttpResponse where
  | okResponse (msg : String)
  | badRequest (msg : String)
  | notFound (msg : String)
  | automationFailed (msg : String)
  | internalError (msg : String)
deriving DecidableEq, Repr

/-- The POST `/:sessionId/send-message` handler (routes, lines 142-190):
reject a request with a falsy `extension`, `phoneNumber` or `message`
with a 400 response before anything else runs; otherwise delegate to
`sendMessageForSession` and map each categorized error to its response.
The `typeof` string check never fires in this model because present
fields are strings by construction. -/
def handleSendMessageRoute (env : Env) (w : World) (sid : String) (req : SendRequest) :
    World × HttpResponse :=
  if isFalsyField req.extension || isFalsyField req.phoneNumber
      || isFalsyField req.message then
    (w, .badRequest "Missing required fields: extension, phoneNumber, message")
  else
    match sendMessageForSession env w sid req with
    | (w1, .ok _) => (w1, .okResponse "Message sent successfully")
    | (w1, .error e) =>
      match e with
      | .sessionNotFound s => (w1, .notFound (JsError.message (.sessionNotFound s)))
      | .invalidInput m => (w1, .badRequest m)
      | .automationFailure m => (w1, .automationFailed m)
      | e1 => (w1, .internalError e1.message)

/-! ## Activity simulator (sessionManager.js lines 34-67) -/

/-- `random(min, max)` (sessionManager.js lines 27-29):
`Math.floor(Math.random() * (max - min + 1)) + min`, with the
`Math.random()` draw supplied as the rational `u`. -/
def random (u : ℚ) (min max : ℤ) : ℤ :=
  ⌊u * ((max : ℚ) - (min : ℚ) + 1)⌋ + min

/-- The recurring task handle returned by `startActivitySimulation`:
its interval is computed once, before `setInterval`, and is fixed for
the session's lifetime (line 36). -/
structure ActivityTimer where
  intervalMs : ℤ
deriving DecidableEq, Repr

/-- `startActivitySimulation` (sessionManager.js lines 34-67), reduced
to the data the registered task closes over: the interval drawn once
from 5-10 minutes. -/
def startActivitySimulation (u : ℚ) : ActivityTimer :=
  ⟨random u (5 * 60 * 1000) (10 * 60 * 1000)⟩

/-- A synthetic page interaction dispatched by the driver. -/
inductive PageAction where
  | mouseMove (x y : ℤ)
  | scrollBy (amount : ℤ)
  | clickAt (target : String)
  | typeText (text : String)
deriving DecidableEq, Repr

/-- The `Math.random()` draws consumed by one firing of the activity
timer: the action coin of line 41 and the coordinate/amount draws of
lines 45-50. -/
structure FiringDraws where
  coin : ℚ
  d1 : ℚ
  d2 : ℚ
  d3 : ℚ
  d4 : ℚ
deriving DecidableEq, Repr

/-- One firing of the activity-simulation timer (the `setInterval`
callback body, lines 38-54): choose `mouse` when the coin exceeds 0.5,
else `scroll`; a mouse firing moves the pointer to a random position
perturbed by a small delta, a scroll firing scrolls by a small random
amount.  The returned list is the sequence of page interactions the
firing dispatches. -/
def activityFiring (fd : FiringDraws) : List PageAction :=
  if fd.coin > 1 / 2 then
    [PageAction.mouseMove
      (random fd.d1 100 500 + random fd.d2 (-2) 2)
      (random fd.d3 100 500 + random fd.d4 (-2) 2)]
  else
    [PageAction.scrollBy (random fd.d1 10 50)]

/-! ## Helper lemmas -/

lemma getD_mod_mem {α : Type} (l : List α) (d : α) (r : Nat) (h : l ≠ []) :
    l.getD (r % l.length) d ∈ l := by
  have hlen : 0 < l.length := List.length_pos.mpr h
  have hlt : r % l.length < l.length := Nat.mod_lt _ hlen
  simp [List.getD_eq_getElem?_getD, List.getElem?_eq_getElem hlt, List.getElem_mem]

lemma lookupSession_setSession_self (l : List (String × SessionRec)) (sid : String)
    (v : SessionRec) : lookupSession (setSession l sid v) sid = some v := by
  induction l with
  | nil => simp [setSession, lookupSession]
  | cons p rest ih =>
    obtain ⟨k, w⟩ := p
    by_cases hk : k = sid
    · simp [setSession, lookupSession, hk]
    · simp [setSession, lookupSession, hk, ih]

lemma lookupSession_removeSession_self (l : List (String × SessionRec)) (sid : String) :
    lookupSession (removeSession l sid) sid = none := by
  induction l with
  | nil => simp [removeSession, lookupSession]
  | cons p rest ih =>
    obtain ⟨k, w⟩ := p
    by_cases hk : k = sid
    · simp [removeSession, hk, ih]
    · simp [removeSession, lookupSession, hk, ih]

lemma not_mem_ids_removeSession (l : List (String × SessionRec)) (sid : String) :
    sid ∉ (removeSession l sid).map (fun p => p.1) := by
  induction l with
  | nil => simp [removeSession]
  | cons p rest ih =>
    obtain ⟨k, w⟩ := p
    by_cases hk : k = sid
    · simpa [removeSession, hk] using ih
    · simp only [removeSession, if_neg hk, List.map_cons, List.mem_cons, not_or]
      exact ⟨fun hs => hk hs.symm, ih⟩

/-- State effects of `createBrowser`: the factory never closes anything,
never touches timers or the registry, and on success returns three
fresh consecutive handles carrying the requested fingerprint. -/
lemma createBrowser_state (env : Env) (w : World) (sid : String)
    (fpO : Option Fingerprint) :
    (createBrowser env w sid fpO).1.closed = w.closed ∧
    (createBrowser env w sid fpO).1.cancelled = w.cancelled ∧
    (createBrowser env w sid fpO).1.activeTimers = w.activeTimers ∧
    (createBrowser env w sid fpO).1.registry = w.registry ∧
    ∀ bi, (createBrowser env w sid fpO).2 = .ok bi →
      bi.browser = w.nextHandle ∧ bi.context = w.nextHandle + 1 ∧
      bi.page = w.nextHandle + 2 ∧
      (createBrowser env w sid fpO).1.nextHandle = w.nextHandle + 3 ∧
      bi.fingerprint = (match fpO with
        | some fp => fp
        | none => generateFingerprint env.draws) := by
  rcases hL : env.launchErr with _ | m
  · rcases hC : env.newContextErr with _ | m
    · rcases hI : env.initScriptErr with _ | m
      · rcases hP : env.newPageErr with _ | m
        · simp [createBrowser, hL, hC, hI, hP]
        · simp [createBrowser, hL, hC, hI, hP]
      · simp [createBrowser, hL, hC, hI]
    · simp [createBrowser, hL, hC]
  · simp [createBrowser, hL]

/-- Characterization of a successful `createSession` call: the returned
id is the supplied one when truthy (else the fresh uuid draw, per the
`existingSessionId || uuidv4()` falsiness fallback), no resource was
closed and no timer cancelled by the call, and the registry gained (or
replaced in place) an entry for the id holding the freshly allocated
handles, the current timestamps, and the supplied fingerprint (a fresh
draw when none was supplied). -/
lemma createSession_ok_spec (env : Env) (w : World) (cs : String)
    (sidO : Option String) (fpO : Option Fingerprint) (w1 : World) (sid : String)
    (h : createSession env w cs sidO fpO = (w1, .ok sid)) :
    sid = (if isFalsyField sidO then env.freshId else sidO.getD "") ∧
    w1.closed = w.closed ∧
    w1.cancelled = w.cancelled ∧
    ∃ s : SessionRec,
      w1.registry = setSession w.registry sid s ∧
      s.browser = w.nextHandle ∧
      s.context = w.nextHandle + 1 ∧
      s.page = w.nextHandle + 2 ∧
      s.activityTimer = some (w.nextHandle + 3) ∧
      s.createdAt = env.now ∧
      s.lastActivity = env.now ∧
      s.fingerprint = (match fpO with
        | some fp => fp
        | none => generateFingerprint env.draws) := by
  cases hblank : (jsTrim cs.data).isEmpty with
  | true => simp [createSession, hblank] at h
  | false =>
  rcases hL : env.launchErr with _ | m
  · rcases hC : env.newContextErr with _ | m
    · rcases hI : env.initScriptErr with _ | m
      · rcases hP : env.newPageErr with _ | m
        · by_cases hck : (parseCookieString cs).length = 0
          · simp [createSession, createBrowser, hblank, hL, hC, hI, hP, hck] at h
          · rcases hG : env.gotoErr with _ | m
            · rcases hW : env.waitErr with _ | m
              · rcases hT : env.titleErr with _ | m
                · simp only [createSession, createBrowser, hblank, hL, hC, hI, hP, hck,
                    hG, hW, hT, Bool.false_eq_true, if_false, if_neg hck,
                    Prod.mk.injEq, Except.ok.injEq] at h
                  obtain ⟨hw, hsid⟩ := h
                  subst hw
                  subst hsid
                  refine ⟨rfl, rfl, rfl, _, rfl, rfl, rfl, rfl, rfl, rfl, rfl, ?_⟩
                  cases fpO <;> rfl
                · simp [createSession, createBrowser, hblank, hL, hC, hI, hP, hck, hG, hW, hT] at h
              · simp [createSession, createBrowser, hblank, hL, hC, hI, hP, hck, hG, hW] at h
            · simp [createSession, createBrowser, hblank, hL, hC, hI, hP, hck, hG] at h
        · simp [createSession, createBrowser, hblank, hL, hC, hI, hP] at h
      · simp [createSession, createBrowser, hblank, hL, hC, hI] at h
    · simp [createSession, createBrowser, hblank, hL, hC] at h
  · simp [createSession, createBrowser, hblank, hL] at h

/-- Range of `random u min max` for a `Math.random()` draw `u` in `[0,1)`. -/
lemma random_range (u : ℚ) (lo hi : ℤ) (hu0 : 0 ≤ u) (hu1 : u < 1) (hlh : lo ≤ hi) :
    lo ≤ random u lo hi ∧ random u lo hi ≤ hi := by
  have hn : (0 : ℚ) < (hi : ℚ) - (lo : ℚ) + 1 := by
    have hc : (lo : ℚ) ≤ (hi : ℚ) := by exact_mod_cast hlh
    linarith
  constructor
  · have hfl : (0 : ℤ) ≤ ⌊u * ((hi : ℚ) - (lo : ℚ) + 1)⌋ :=
      Int.floor_nonneg.mpr (mul_nonneg hu0 (le_of_lt hn))
    unfold random
    omega
  · have hlt : u * ((hi : ℚ) - (lo : ℚ) + 1) < ((hi - lo + 1 : ℤ) : ℚ) := by
      push_cast
      nlinarith
    have hfl : ⌊u * ((hi : ℚ) - (lo : ℚ) + 1)⌋ < hi - lo + 1 := Int.floor_lt.mpr hlt
    unfold random
    omega

@[simp] lemma clearTimerOpt_registry (o : Option Nat) (w : World) :
    (clearTimerOpt o w).registry = w.registry := by
  cases o <;> rfl

@[simp] lemma clearTimerOpt_closed (o : Option Nat) (w : World) :
    (clearTimerOpt o w).closed = w.closed := by
  cases o <;> rfl

lemma parseCookiePair_name_ne (pair : List Char) (c : Cookie)
    (h : parseCookiePair pair = some c) : c.name ≠ "" := by
  rw [parseCookiePair] at h
  split at h
  · exact absurd h (by simp)
  · split at h
    · exact absurd h (by simp)
    · dsimp only at h
      split at h
      · exact absurd h (by simp)
      · rename_i hname
        injection h with h2
        subst h2
        intro habs
        apply hname
        have hn := congrArg String.data habs
        simp only [] at hn
        rw [show (jsTrim ((jsTrim pair).take _)) = [] from hn]
        rfl

lemma startsWithChar_iff (v : List Char) (q : Char) :
    startsWithChar v q = true ↔ v.head? = some q := by
  cases v <;> simp [startsWithChar]

lemma endsWithChar_iff (v : List Char) (q : Char) :
    endsWithChar v q = true ↔ v.getLast? = some q := by
  cases h : v.getLast? <;> simp [endsWithChar, h]

/-! ## Concrete fixtures used by the witnesses -/

/-- A concrete fingerprint descriptor (one particular draw). -/
def fpX : Fingerprint := generateFingerprint ⟨1, 2, 3, 4, 5⟩

/-- An environment in which every browser operation succeeds. -/
def envOK : Env :=
  { launchErr := none, newContextErr := none, initScriptErr := none
    newPageErr := none, gotoErr := none, waitErr := none, titleErr := none
    freshId := "fresh-1", now := 111, draws := ⟨0, 0, 0, 0, 0⟩
    sendOutcome := fun _ => .ok () }

/-- An environment in which the six-step automation fails with a
closed-target error, as Playwright reports after a browser crash. -/
def envCrash : Env :=
  { envOK with sendOutcome := fun _ => .error (.other "Target closed") }

/-- A session record already present in the registry. -/
def oldRec : SessionRec :=
  { browser := 0, context := 1, page := 2, activityTimer := some 3
    createdAt := 5, lastActivity := 6, fingerprint := fpX }

/-- A world whose registry holds one live session `sid-7`. -/
def wExisting : World :=
  { nextHandle := 4, allocated := [2, 1, 0], closed := [], activeTimers := [3]
    cancelled := [], registry := [("sid-7", oldRec)] }

/-- A fully populated message-send request. -/
def reqOK : SendRequest := ⟨some "62", some "87769691301", some "hello"⟩

/-- An environment in which `chromium.launch` succeeds and
`browser.newContext` throws. -/
def envLeak : Env :=
  { envOK with newContextErr := some "newContext failed", freshId := "sid-1", now := 0 }

/-- The run of `createSession` against `envLeak` on a fresh process. -/
def c1run : World × Except JsError String :=
  createSession envLeak emptyWorld "c_user=123" none none

/-! ## Claim theorems -/

/-- C2: if `sendMessageForSession` runs on a registered session and the
underlying automation failure carries a recognized closed-resource
message, the session record is deleted from the registry and the call
fails with `BrowserCrash`; immediately afterwards the identifier is
absent from `getSession` and from `getAllSessionIds`. -/
theorem sendMessageForSession_crash_evicts (env : Env) (w : World) (sid : String)
    (req : SendRequest) (s : SessionRec) (e : JsError)
    (hreg : lookupSession w.registry sid = some s)
    (hsend : sendMessage env s.page req = .error e)
    (hclosed : isClosedResourceMsg e.message = true) :
    (sendMessageForSession env w sid req).2
        = .error (.browserCrash ("Browser crashed for session " ++ sid)) ∧
    getSession (sendMessageForSession env w sid req).1 sid
        = .error (.sessionNotFound sid) ∧
    sid ∉ getAllSessionIds (sendMessageForSession env w sid req).1 := by
  refine ⟨?_, ?_, ?_⟩
  · simp [sendMessageForSession, hreg, hsend, hclosed]
  · simp [sendMessageForSession, hreg, hsend, hclosed, getSession,
      lookupSession_removeSession_self]
  · simp only [sendMessageForSession, hreg, hsend, hclosed, if_true, getAllSessionIds]
    exact not_mem_ids_removeSession _ sid

/-- Closed witness for C2: a concrete registered session, a concrete
closed-target failure, and the observable eviction. -/
theorem sendMessageForSession_crash_evicts_witness :
    lookupSession wExisting.registry "sid-7" = some oldRec ∧
    sendMessage envCrash oldRec.page reqOK = .error (.other "Target closed") ∧
    isClosedResourceMsg (JsError.message (.other "Target closed")) = true ∧
    ((sendMessageForSession envCrash wExisting "sid-7" reqOK).2
        = .error (.browserCrash ("Browser crashed for session " ++ "sid-7")) ∧
      getSession (sendMessageForSession envCrash wExisting "sid-7" reqOK).1 "sid-7"
        = .error (.sessionNotFound "sid-7") ∧
      "sid-7" ∉ getAllSessionIds (sendMessageForSession envCrash wExisting "sid-7" reqOK).1) :=
  ⟨rfl, rfl, by decide,
    sendMessageForSession_crash_evicts envCrash wExisting "sid-7" reqOK oldRec
      (.other "Target closed") rfl rfl (by decide)⟩

/-- C3: `destroySession` fails with `SessionNotFound` exactly when the
identifier is absent from the registry; on a registered identifier it
succeeds, afterwards the identifier is absent from `getSession` and
`getAllSessionIds` (resource-release failures are swallowed by the
source's `.catch` handlers and cannot prevent the removal), and a
second `destroySession` of the same identifier fails with
`SessionNotFound`. -/
theorem destroySession_spec (w : World) (sid : String) :
    ((destroySession w sid).2 = .error (.sessionNotFound sid) ↔
      lookupSession w.registry sid = none) ∧
    ∀ s, lookupSession w.registry sid = some s →
      (destroySession w sid).2 = .ok () ∧
      getSession (destroySession w sid).1 sid = .error (.sessionNotFound sid) ∧
      sid ∉ getAllSessionIds (destroySession w sid).1 ∧
      (destroySession (destroySession w sid).1 sid).2
          = .error (.sessionNotFound sid) := by
  rcases hl : lookupSession w.registry sid with _ | s0
  · refine ⟨by simp [destroySession, hl], ?_⟩
    intro s hs
    cases hs
  · refine ⟨by simp [destroySession, hl], ?_⟩
    intro s hs
    refine ⟨by simp [destroySession, hl], ?_, ?_, ?_⟩
    · simp [destroySession, hl, getSession, lookupSession_removeSession_self]
    · simp only [destroySession, hl, getAllSessionIds]
      exact not_mem_ids_removeSession _ sid
    · simp [destroySession, hl, lookupSession_removeSession_self]

/-- Closed witness for C3: destroying the concrete registered session
`sid-7` succeeds, removes it from every lookup, and a second destroy
reports `SessionNotFound`. -/
theorem destroySession_spec_witness :
    lookupSession wExisting.registry "sid-7" = some oldRec ∧
    ((destroySession wExisting "sid-7").2 = .ok () ∧
      getSession (destroySession wExisting "sid-7").1 "sid-7"
        = .error (.sessionNotFound "sid-7") ∧
      "sid-7" ∉ getAllSessionIds (destroySession wExisting "sid-7").1 ∧
      (destroySession (destroySession wExisting "sid-7").1 "sid-7").2
        = .error (.sessionNotFound "sid-7")) :=
  ⟨rfl, (destroySession_spec wExisting "sid-7").2 oldRec rfl⟩

/-- C6: a message-send request missing any of the `extension`,
`phoneNumber` or `message` fields is rejected by the route with the 400
invalid-input response (the status `InvalidInputError` carries), for
every session and registry state, and is never classified as an
automation failure: the route's validation runs before
`sendMessageForSession`, so the `AutomationError` path of the
automation engine is unreachable for such a request. -/
theorem route_missing_fields_invalid_input (env : Env) (w : World) (sid : String)
    (req : SendRequest)
    (h : req.extension = none ∨ req.phoneNumber = none ∨ req.message = none) :
    (handleSendMessageRoute env w sid req).2
        = .badRequest "Missing required fields: extension, phoneNumber, message" ∧
    ∀ m, (handleSendMessageRoute env w sid req).2 ≠ .automationFailed m := by
  have hcond : (isFalsyField req.extension || isFalsyField req.phoneNumber
      || isFalsyField req.message) = true := by
    rcases h with h | h | h <;> simp [h, isFalsyField]
  refine ⟨?_, ?_⟩
  · simp [handleSendMessageRoute, hcond]
  · intro m
    simp [handleSendMessageRoute, hcond]

/-- Closed witness for C6: a request with no `extension` field against a
live session gets the 400 invalid-input response. -/
theorem route_missing_fields_invalid_input_witness :
    ((⟨none, some "87769691301", some "hello"⟩ : SendRequest).extension = none) ∧
    ((handleSendMessageRoute envOK wExisting "sid-7"
        ⟨none, some "87769691301", some "hello"⟩).2
      = .badRequest "Missing required fields: extension, phoneNumber, message" ∧
      ∀ m, (handleSendMessageRoute envOK wExisting "sid-7"
        ⟨none, some "87769691301", some "hello"⟩).2 ≠ .automationFailed m) :=
  ⟨rfl, route_missing_fields_invalid_input envOK wExisting "sid-7"
    ⟨none, some "87769691301", some "hello"⟩ (Or.inl rfl)⟩

/-- C4 (amended): restoring a journal entry that has a non-empty
session identifier and both a cookie string and a fingerprint replays
creation under the same session identifier, and the recreated session's
stored fingerprint descriptor is identical (as a whole value, hence
field for field) to the persisted one; the factory uses a supplied
fingerprint whenever one is provided and draws a fresh one only when
none is given.  The non-emptiness hypothesis is needed because an
empty-string identifier is falsy in `existingSessionId || uuidv4()`
(sessionManager.js line 80) and would be regenerated as a fresh uuid
(see the counterexample). -/
theorem recreateSession_fingerprint_roundtrip (env : Env) (w : World)
    (mdSessionId : String) (mdCookieString : Option String) (fp : Fingerprint)
    (w1 : World) (sid : String)
    (hid : mdSessionId ≠ "")
    (h : recreateSession env w mdSessionId mdCookieString (some fp) = (w1, some sid)) :
    sid = mdSessionId ∧
    (∃ s, lookupSession w1.registry mdSessionId = some s ∧ s.fingerprint = fp) ∧
    (∀ (w' : World) (sid' : String) (w'' : World) (bi : BrowserInstance),
      createBrowser env w' sid' (some fp) = (w'', .ok bi) → bi.fingerprint = fp) ∧
    (∀ (w' : World) (sid' : String) (w'' : World) (bi : BrowserInstance),
      createBrowser env w' sid' none = (w'', .ok bi) →
        bi.fingerprint = generateFingerprint env.draws) := by
  have hfac1 : ∀ (w' : World) (sid' : String) (w'' : World) (bi : BrowserInstance),
      createBrowser env w' sid' (some fp) = (w'', .ok bi) → bi.fingerprint = fp := by
    intro w' sid' w'' bi hcb
    have hb := ((createBrowser_state env w' sid' (some fp)).2.2.2.2 bi (by rw [hcb]))
    simpa using hb.2.2.2.2
  have hfac2 : ∀ (w' : World) (sid' : String) (w'' : World) (bi : BrowserInstance),
      createBrowser env w' sid' none = (w'', .ok bi) →
        bi.fingerprint = generateFingerprint env.draws := by
    intro w' sid' w'' bi hcb
    have hb := ((createBrowser_state env w' sid' none).2.2.2.2 bi (by rw [hcb]))
    simpa using hb.2.2.2.2
  by_cases hcs : isFalsyField mdCookieString = true
  · simp [recreateSession, hcs] at h
  · rcases hc : createSession env w (mdCookieString.getD "") (some mdSessionId) (some fp)
      with ⟨wc, rc⟩
    cases rc with
    | error e => simp [recreateSession, hcs, hc] at h
    | ok s =>
      simp only [recreateSession, hcs, Bool.false_eq_true, if_false, hc,
        Prod.mk.injEq, Option.some.injEq] at h
      obtain ⟨hw, hs⟩ := h
      subst hw
      subst hs
      obtain ⟨hsid, _, _, srec, hreg, _, _, _, _, _, _, hfp⟩ :=
        createSession_ok_spec _ _ _ _ _ _ _ hc
      have hsid' : s = mdSessionId := by
        simpa [isFalsyField, hid] using hsid
      subst hsid'
      refine ⟨rfl, ⟨srec, ?_, ?_⟩, hfac1, hfac2⟩
      · rw [hreg]
        exact lookupSession_setSession_self _ _ _
      · exact hfp

/-- Closed witness for C4: replaying a concrete journal entry recreates
session `sid-9` with exactly the persisted fingerprint `fpX`. -/
theorem recreateSession_fingerprint_roundtrip_witness :
    ("sid-9" : String) ≠ "" ∧
    recreateSession envOK emptyWorld "sid-9" (some "c1=2") (some fpX)
        = ((recreateSession envOK emptyWorld "sid-9" (some "c1=2") (some fpX)).1,
           some "sid-9") ∧
    ∃ s, lookupSession
        (recreateSession envOK emptyWorld "sid-9" (some "c1=2") (some fpX)).1.registry
        "sid-9" = some s ∧ s.fingerprint = fpX :=
  ⟨by decide, rfl, (recreateSession_fingerprint_roundtrip envOK emptyWorld "sid-9"
    (some "c1=2") fpX _ "sid-9" (by decide) rfl).2.1⟩

/-- Counterexample for C4 as originally stated: a journal entry whose
persisted identifier is the empty string (and which has both a cookie
string and a fingerprint) is not replayed under the same identifier —
the empty string is falsy in `existingSessionId || uuidv4()`, so the
recreation succeeds under the fresh uuid draw instead, and afterwards
the registry has no entry under the persisted identifier. -/
theorem recreateSession_empty_id_regenerates :
    (recreateSession envOK emptyWorld "" (some "c1=2") (some fpX)).2 = some "fresh-1" ∧
    envOK.freshId = "fresh-1" ∧
    ("fresh-1" : String) ≠ "" ∧
    lookupSession
      (recreateSession envOK emptyWorld "" (some "c1=2") (some fpX)).1.registry ""
      = none :=
  ⟨rfl, rfl, by decide, rfl⟩

/-- C10 (amended): a successful `createSession` with a non-empty
`existingSessionId` that is already registered replaces the registry
entry in place with the new record; the previous record's activity
timer is not cancelled and its page, context and browser are not closed
by any step of the call — the old handles are dropped from the registry
without being released.  Non-emptiness is needed because an
empty-string id is falsy in `existingSessionId || uuidv4()` and the
call would instead register a fresh uuid, leaving the old entry in
place (see the counterexample). -/
theorem createSession_existing_id_replaces_without_release (env : Env) (w : World)
    (cs : String) (sid : String) (fpO : Option Fingerprint) (old : SessionRec)
    (t : Nat) (w1 : World) (sid' : String)
    (hne : sid ≠ "")
    (_hold : lookupSession w.registry sid = some old)
    (_htimer : old.activityTimer = some t)
    (hfresh : old.page < w.nextHandle)
    (h : createSession env w cs (some sid) fpO = (w1, .ok sid')) :
    sid' = sid ∧
    w1.closed = w.closed ∧
    w1.cancelled = w.cancelled ∧
    (t ∉ w.cancelled → t ∉ w1.cancelled) ∧
    (old.page ∉ w.closed → old.page ∉ w1.closed) ∧
    (old.context ∉ w.closed → old.context ∉ w1.closed) ∧
    (old.browser ∉ w.closed → old.browser ∉ w1.closed) ∧
    ∃ s, lookupSession w1.registry sid = some s ∧ s ≠ old ∧
      s.createdAt = env.now ∧ s.lastActivity = env.now := by
  obtain ⟨hsid, hcl, hca, srec, hreg, _, _, hp, _, hcr, hla, _⟩ :=
    createSession_ok_spec env w cs (some sid) fpO w1 sid' h
  have hsid' : sid' = sid := by
    simpa [isFalsyField, hne] using hsid
  refine ⟨hsid', hcl, hca, ?_, ?_, ?_, ?_, ⟨srec, ?_, ?_, hcr, hla⟩⟩
  · rw [hca]; exact id
  · rw [hcl]; exact id
  · rw [hcl]; exact id
  · rw [hcl]; exact id
  · rw [hreg, hsid']
    exact lookupSession_setSession_self _ _ _
  · intro heq
    rw [heq] at hp
    omega

/-- Closed witness for C10: recreating over the live session `sid-7`
replaces the entry while leaving the old timer uncancelled and the old
handles unclosed. -/
theorem createSession_existing_id_replaces_without_release_witness :
    ("sid-7" : String) ≠ "" ∧
    lookupSession wExisting.registry "sid-7" = some oldRec ∧
    oldRec.activityTimer = some 3 ∧
    oldRec.page < wExisting.nextHandle ∧
    ("sid-7" = "sid-7" ∧
      (createSession envOK wExisting "c1=2" (some "sid-7") none).1.closed
        = wExisting.closed ∧
      (createSession envOK wExisting "c1=2" (some "sid-7") none).1.cancelled
        = wExisting.cancelled ∧
      (3 ∉ wExisting.cancelled →
        3 ∉ (createSession envOK wExisting "c1=2" (some "sid-7") none).1.cancelled) ∧
      (oldRec.page ∉ wExisting.closed →
        oldRec.page ∉ (createSession envOK wExisting "c1=2" (some "sid-7") none).1.closed) ∧
      (oldRec.context ∉ wExisting.closed →
        oldRec.context ∉ (createSession envOK wExisting "c1=2" (some "sid-7") none).1.closed) ∧
      (oldRec.browser ∉ wExisting.closed →
        oldRec.browser ∉ (createSession envOK wExisting "c1=2" (some "sid-7") none).1.closed) ∧
      ∃ s, lookupSession
          (createSession envOK wExisting "c1=2" (some "sid-7") none).1.registry
          "sid-7" = some s ∧ s ≠ oldRec ∧
        s.createdAt = envOK.now ∧ s.lastActivity = envOK.now) :=
  ⟨by decide, rfl, rfl, by decide,
    createSession_existing_id_replaces_without_release envOK wExisting "c1=2" "sid-7"
      none oldRec 3 _ "sid-7" (by decide) rfl rfl (by decide) rfl⟩

/-- A world whose registry holds a session under the empty-string key. -/
def wEmptyId : World :=
  { nextHandle := 4, allocated := [2, 1, 0], closed := [], activeTimers := [3]
    cancelled := [], registry := [("", oldRec)] }

/-- Counterexample for C10 as originally stated: calling `createSession`
with the already-registered `existingSessionId` equal to the empty
string does not replace that entry — the empty string is falsy in
`existingSessionId || uuidv4()`, so the call succeeds under the fresh
uuid draw, returns an identifier different from the supplied one, and
leaves the old record registered under the empty-string key. -/
theorem createSession_empty_existing_id_not_replaced :
    lookupSession wEmptyId.registry "" = some oldRec ∧
    (createSession envOK wEmptyId "c1=2" (some "") none).2 = .ok "fresh-1" ∧
    ("fresh-1" : String) ≠ "" ∧
    lookupSession (createSession envOK wEmptyId "c1=2" (some "") none).1.registry ""
      = some oldRec :=
  ⟨rfl, rfl, by decide, rfl⟩

/-- C1 (code-bug demonstration): with a cookie string that parses, a
successful `chromium.launch` and a failing `browser.newContext`,
`createSession` does throw a single categorized error and leaves the
registry without the identifier — but the launched browser remains
allocated and `close()` is never invoked on it, because `createBrowser`
has no rollback and the catch block of `createSession` still sees all
its local handles as `null`.  The claimed "zero resources remain
allocated" is violated. -/
theorem createSession_factory_failure_leaks :
    c1run.2 = .error (.browserCrash "Failed to create session: newContext failed") ∧
    c1run.1.allocated = [0] ∧
    c1run.1.closed = [] ∧
    c1run.1.cancelled = [] ∧
    lookupSession c1run.1.registry "sid-1" = none ∧
    c1run.1.registry = [] :=
  ⟨rfl, rfl, rfl, rfl, rfl, rfl⟩

/-- C7: on the exact input `"a=1; b=\"2\"; ; c"` the parser returns
exactly the two entries `{a,1}` and `{b,2}` in that order — the empty
segment and the `c` segment without `=` are dropped without failing —
and, for every input, every returned entry has a non-empty name. -/
theorem parseCookieString_example_and_names :
    parseCookieString "a=1; b=\"2\"; ; c" = [⟨"a", "1"⟩, ⟨"b", "2"⟩] ∧
    ∀ (s : String) (c : Cookie), c ∈ parseCookieString s → c.name ≠ "" := by
  refine ⟨by decide, ?_⟩
  intro s c hc
  rw [parseCookieString] at hc
  split at hc
  · simp at hc
  · obtain ⟨pair, _, hp⟩ := List.mem_filterMap.mp hc
    exact parseCookiePair_name_ne _ _ hp

/-- Closed witness for C7: the general non-empty-name invariant applied
to a concrete parsed entry. -/
theorem parseCookieString_example_and_names_witness :
    (⟨"a", "1"⟩ : Cookie) ∈ parseCookieString "a=1" ∧
    (⟨"a", "1"⟩ : Cookie).name ≠ "" :=
  ⟨by decide, parseCookieString_example_and_names.2 "a=1" ⟨"a", "1"⟩ (by decide)⟩

/-- C8: the quote-stripping step removes exactly one layer — the first
and last character — precisely when the first and last characters of
the trimmed value are the same quote character (both double quotes or
both single quotes); in every other case, including mismatched quote
characters at the two ends, the value is left verbatim. -/
theorem stripQuotes_matching_ends (v : List Char) :
    stripQuotes v =
      if (v.head? = some dquote ∧ v.getLast? = some dquote)
          ∨ (v.head? = some squote ∧ v.getLast? = some squote) then
        (v.drop 1).dropLast
      else v := by
  by_cases h : (v.head? = some dquote ∧ v.getLast? = some dquote)
      ∨ (v.head? = some squote ∧ v.getLast? = some squote)
  · have hb : ((startsWithChar v dquote && endsWithChar v dquote)
        || (startsWithChar v squote && endsWithChar v squote)) = true := by
      rcases h with ⟨h1, h2⟩ | ⟨h1, h2⟩ <;>
        simp [startsWithChar_iff, endsWithChar_iff, h1, h2]
    rw [stripQuotes, if_pos hb, if_pos h]
  · have hb : ¬(((startsWithChar v dquote && endsWithChar v dquote)
        || (startsWithChar v squote && endsWithChar v squote)) = true) := by
      intro hb
      apply h
      revert hb
      simp only [Bool.or_eq_true, Bool.and_eq_true, startsWithChar_iff, endsWithChar_iff]
      exact id
    rw [stripQuotes, if_neg hb, if_neg h]

/-- C9: the activity-simulation interval is computed once, before the
recurring task is registered, and always lies in the inclusive range of
5 to 10 minutes (in milliseconds); each firing of the task dispatches
exactly one page interaction, and it is either a small pointer movement
or a small scroll delta — never anything else and never both. -/
theorem activitySimulation_spec (u : ℚ) (fd : FiringDraws)
    (hu0 : 0 ≤ u) (hu1 : u < 1) :
    (5 * 60 * 1000 ≤ (startActivitySimulation u).intervalMs ∧
      (startActivitySimulation u).intervalMs ≤ 10 * 60 * 1000) ∧
    ∃ a, activityFiring fd = [a] ∧
      ((∃ x y, a = PageAction.mouseMove x y) ∨ (∃ n, a = PageAction.scrollBy n)) := by
  constructor
  · exact random_range u (5 * 60 * 1000) (10 * 60 * 1000) hu0 hu1 (by norm_num)
  · by_cases hc : fd.coin > 1 / 2
    · exact ⟨_, by rw [activityFiring, if_pos hc], Or.inl ⟨_, _, rfl⟩⟩
    · exact ⟨_, by rw [activityFiring, if_neg hc], Or.inr ⟨_, rfl⟩⟩

/-- Closed witness for C9 at the concrete draw one half. -/
theorem activitySimulation_spec_witness :
    ((0 : ℚ) ≤ 1 / 2 ∧ (1 / 2 : ℚ) < 1) ∧
    ((5 * 60 * 1000 ≤ (startActivitySimulation (1 / 2)).intervalMs ∧
      (startActivitySimulation (1 / 2)).intervalMs ≤ 10 * 60 * 1000) ∧
    ∃ a, activityFiring ⟨0, 0, 0, 0, 0⟩ = [a] ∧
      ((∃ x y, a = PageAction.mouseMove x y) ∨ (∃ n, a = PageAction.scrollBy n))) :=
  ⟨⟨by norm_num, by norm_num⟩,
    activitySimulation_spec (1 / 2) ⟨0, 0, 0, 0, 0⟩ (by norm_num) (by norm_num)⟩

/-- C5: `generateFingerprint` is total on every draw, and each returned
descriptor draws its viewport, platform, hardware concurrency and
device memory from the fixed catalogs, fixes locale and timezone to
constants, embeds in the user agent the platform token matching the
`platform` field, and embeds a Chrome version drawn from the fixed
version catalog. -/
theorem generateFingerprint_spec (rd : RandomDraws) :
    (generateFingerprint rd).viewport ∈ COMMON_RESOLUTIONS ∧
    (generateFingerprint rd).platform ∈ PLATFORMS ∧
    (generateFingerprint rd).hardwareConcurrency ∈ HARDWARE_CONCURRENCY_OPTIONS ∧
    (generateFingerprint rd).deviceMemory ∈ DEVICE_MEMORY_OPTIONS ∧
    (generateFingerprint rd).locale = "en-US" ∧
    (generateFingerprint rd).timezoneId = "America/New_York" ∧
    strIncludes (generateFingerprint rd).userAgent
      (platformToken (generateFingerprint rd).platform) = true ∧
    ∃ v ∈ CHROME_VERSIONS,
      (generateFingerprint rd).userAgent
        = buildUserAgent (generateFingerprint rd).platform v ∧
      strIncludes (generateFingerprint rd).userAgent ("Chrome/" ++ v) = true := by
  have h2 : rd.r2 % 4 = 0 ∨ rd.r2 % 4 = 1 ∨ rd.r2 % 4 = 2 ∨ rd.r2 % 4 = 3 := by omega
  have h3 : rd.r3 % 3 = 0 ∨ rd.r3 % 3 = 1 ∨ rd.r3 % 3 = 2 := by omega
  refine ⟨?_, ?_, ?_, ?_, rfl, rfl, ?_, ?_⟩
  · exact getD_mod_mem COMMON_RESOLUTIONS ⟨0, 0⟩ rd.r1 (by simp [COMMON_RESOLUTIONS])
  · exact getD_mod_mem PLATFORMS "" rd.r3 (by simp [PLATFORMS])
  · exact getD_mod_mem HARDWARE_CONCURRENCY_OPTIONS 0 rd.r4
      (by simp [HARDWARE_CONCURRENCY_OPTIONS])
  · exact getD_mod_mem DEVICE_MEMORY_OPTIONS 0 rd.r5 (by simp [DEVICE_MEMORY_OPTIONS])
  · show strIncludes
      (buildUserAgent (randomChoice PLATFORMS "" rd.r3) (randomChoice CHROME_VERSIONS "" rd.r2))
      (platformToken (randomChoice PLATFORMS "" rd.r3)) = true
    rcases h3 with h3 | h3 | h3 <;> rcases h2 with h2 | h2 | h2 | h2 <;>
      simp only [randomChoice, PLATFORMS, CHROME_VERSIONS, List.length_cons,
        List.length_nil, Nat.reduceAdd, h3, h2, List.getD] <;> decide
  · refine ⟨randomChoice CHROME_VERSIONS "" rd.r2,
      getD_mod_mem CHROME_VERSIONS "" rd.r2 (by simp [CHROME_VERSIONS]), rfl, ?_⟩
    show strIncludes
      (buildUserAgent (randomChoice PLATFORMS "" rd.r3) (randomChoice CHROME_VERSIONS "" rd.r2))
      ("Chrome/" ++ randomChoice CHROME_VERSIONS "" rd.r2) = true
    rcases h3 with h3 | h3 | h3 <;> rcases h2 with h2 | h2 | h2 | h2 <;>
      simp only [randomChoice, PLATFORMS, CHROME_VERSIONS, List.length_cons,
        List.length_nil, Nat.reduceAdd, h3, h2, List.getD] <;> decide

end MWH
